import Mathlib

/-!
Verification development for the `sportstiming.dk` ticket-checker bot
(`ticket_checker.py`, class `SportstimingTicketChecker`).

The Python program polls ticket pages, classifies availability from page
text, scans ranges of ticket ids, and fans notifications out to several
channels.  This file gives a shallow embedding of the core decision logic:

* statuses are the string constants used by the program, as an enum;
* a fetched page is modelled by its list of text nodes (BeautifulSoup's
  text nodes; `soup.get_text()` is their concatenation);
* one HTTP attempt is modelled by its observable outcome (timeout, other
  request failure, or a response with a status code and a page);
* the retry loops, the classification chains, the scanner loop and the
  notification fan-out are translated branch by branch from the source.

Network, logging, timestamps and the DOM-fragment counting helper are
external effects and are abstracted: functions take the outcome of each
network call as an explicit argument, and timestamp/url fields of result
records are dropped (they never feed back into control flow).
-/

/-- Status strings used by `ticket_checker.py`.  The program itself only
ever constructs `TICKETS_AVAILABLE`, `NO_TICKETS`, `ERROR` and `TEST`;
`AUTH_REQUIRED` and `RATE_LIMITED` are listed in the specification's
status taxonomy and are included so that their absence can be stated. -/
inductive TStatus
  | TICKETS_AVAILABLE
  | NO_TICKETS
  | ERROR
  | AUTH_REQUIRED
  | RATE_LIMITED
  | TEST
deriving DecidableEq, Repr

/-- A fetched HTML page, modelled by its list of text nodes.
`BeautifulSoup.get_text()` is the concatenation of the nodes;
`soup.find(string=...)` / `soup.find_all(string=...)` search the nodes. -/
structure Page where
  nodes : List String
deriving DecidableEq, Repr

/-- The page text, `soup.get_text()`. -/
def pageText (p : Page) : String := String.join p.nodes

/-- Boolean prefix test on character lists (helper for substring search). -/
def charsHavePre : List Char → List Char → Bool
  | [], _ => true
  | _ :: _, [] => false
  | a :: as, b :: bs => a == b && charsHavePre as bs

/-- Boolean substring test on character lists. -/
def charsContain (pat : List Char) : List Char → Bool
  | [] => charsHavePre pat []
  | b :: bs => charsHavePre pat (b :: bs) || charsContain pat bs

/-- Python's `pat in s` on strings. -/
def strContains (s pat : String) : Bool := charsContain pat.toList s.toList

/-- Outcome record of one ticket check, the dictionary built by
`check_individual_ticket` (timestamp and url omitted: they are external
effects never used by the program's control flow). -/
structure TicketResult where
  ticket_id : Nat
  status : TStatus
  message : String
deriving DecidableEq, Repr

/-- Danish "sold or reserved" message checked by `check_individual_ticket`. -/
def unavailable_message : String :=
  "Det er p.t. ikke muligt at foretage dette valg, da alt enten er solgt eller reserveret. Hvis en anden kunde afbryder sit køb, kan reservationen muligvis frigives igen."

/-- English "sold or reserved" message checked by `check_individual_ticket`. -/
def unavailable_message_en : String :=
  "It is currently not possible to make this choice, as everything is either sold or reserved. If another customer cancels their purchase, the reservation may possibly be released again."

/-- Expired/cancelled phrases checked by `check_individual_ticket`. -/
def expired_messages : List String :=
  [("completed or has been cancelled"), ("expired"), ("cancelled"), ("afsluttet"), ("annulleret")]

/-- Classification of a successfully fetched individual ticket page,
lines 176-260 of `ticket_checker.py` (the body after
`response.raise_for_status()`), translated branch by branch. -/
def classify_ticket_page (ticket_id : Nat) (page : Page) : TicketResult :=
  let page_text := pageText page
  let is_expired :=
    expired_messages.any (fun exp_msg => strContains page_text.toLower exp_msg.toLower)
  if strContains page_text unavailable_message
      || strContains page_text unavailable_message_en then
    { ticket_id := ticket_id, status := TStatus.NO_TICKETS,
      message := ("Ticket " ++ toString ticket_id ++ " is sold or reserved") }
  else if is_expired then
    { ticket_id := ticket_id, status := TStatus.NO_TICKETS,
      message := ("Ticket " ++ toString ticket_id ++ " is expired or cancelled") }
  else if page_text.trim.length < 2000 then
    { ticket_id := ticket_id, status := TStatus.NO_TICKETS,
      message := ("Ticket " ++ toString ticket_id ++ " appears to be invalid (page too short)") }
  else
    let buy_button := page.nodes.any (fun t => strContains t.toLower ("køb"))
    let price_elements := page.nodes.any (fun t =>
      strContains t.toLower ("sek") || strContains t.toLower ("kr")
        || strContains t.toLower ("dkk"))
    if buy_button || price_elements then
      { ticket_id := ticket_id, status := TStatus.TICKETS_AVAILABLE,
        message := ("🎫 Ticket " ++ toString ticket_id ++ " is AVAILABLE for purchase! Buy now!") }
    else
      { ticket_id := ticket_id, status := TStatus.TICKETS_AVAILABLE,
        message := ("🎫 Ticket " ++ toString ticket_id ++ " may be available (no unavailable message found)") }

/-- Observable outcome of one `session.get` call on a ticket page:
a timeout (`requests.exceptions.Timeout`), another request failure
(`requests.RequestException`), or a response with its HTTP status code
and parsed page. -/
inductive HttpAttempt
  | timeout
  | netError (msg : String)
  | response (code : Nat) (page : Page)
deriving DecidableEq, Repr

/-- The three retry strategies of `check_individual_ticket`
(`timeout` seconds, pre-request `delay` seconds). -/
def strategies : List (Nat × Nat) := [(10, 0), (15, 2), (20, 5)]

/-- One iteration of the `for attempt, strategy in enumerate(strategies, 1)`
loop in `check_individual_ticket`.  `none` means the Python `continue`
(retry with the next strategy); `some r` means `return r`.  `last` is
`attempt == len(strategies)` (so `attempt < len(strategies)` is `!last`).
A response whose code is neither 403 nor 404 but in `[400, 600)` makes
`response.raise_for_status()` raise, which is caught by the
`requests.RequestException` handler. -/
def attempt_result (ticket_id : Nat) (a : HttpAttempt) (last : Bool) : Option TicketResult :=
  match a with
  | HttpAttempt.response code page =>
    if code == 403 then
      if !last then
        none
      else
        some { ticket_id := ticket_id, status := TStatus.NO_TICKETS,
               message := ("Ticket " ++ toString ticket_id ++ " access forbidden (likely not available or protected)") }
    else if code == 404 then
      some { ticket_id := ticket_id, status := TStatus.NO_TICKETS,
             message := ("Ticket " ++ toString ticket_id ++ " not found (404)") }
    else if 400 ≤ code && code < 600 then
      if !last then
        none
      else
        some { ticket_id := ticket_id, status := TStatus.ERROR,
               message := ("Failed to fetch ticket " ++ toString ticket_id ++ " after 3 attempts: HTTPError") }
    else
      some (classify_ticket_page ticket_id page)
  | HttpAttempt.timeout =>
    if !last then
      none
    else
      some { ticket_id := ticket_id, status := TStatus.ERROR,
             message := ("Timeout checking ticket " ++ toString ticket_id ++ " after 3 attempts") }
  | HttpAttempt.netError e =>
    if !last then
      none
    else
      some { ticket_id := ticket_id, status := TStatus.ERROR,
             message := ("Failed to fetch ticket " ++ toString ticket_id ++ " after 3 attempts: " ++ e) }

/-- `check_individual_ticket(ticket_id)`: runs the three strategies in
order; `resp n` is the observable outcome of the HTTP request made on
attempt `n` (numbered from 1).  The final `none` arm is unreachable
(`attempt_result` with `last := true` always returns `some`, see
`attempt_result_last_isSome`); it mirrors the fact that the Python loop
cannot fall through its last iteration without returning. -/
def check_individual_ticket (ticket_id : Nat) (resp : Nat → HttpAttempt) : TicketResult :=
  match attempt_result ticket_id (resp 1) false with
  | some r => r
  | none =>
    match attempt_result ticket_id (resp 2) false with
    | some r => r
    | none =>
      match attempt_result ticket_id (resp 3) true with
      | some r => r
      | none =>
        { ticket_id := ticket_id, status := TStatus.ERROR, message := ("") }

/-- Externally visible fetch events of `check_individual_ticket`:
the pre-request `time.sleep(strategy[delay])` calls (only when the
delay is positive) and the `session.get` requests with their timeout. -/
inductive FetchEvent
  | sleep (secs : Nat)
  | request (ticket_id : Nat) (timeoutSecs : Nat)
deriving DecidableEq, Repr

/-- The sequence of sleeps and HTTP requests `check_individual_ticket`
performs for a given sequence of attempt outcomes.  Attempt 1 uses
timeout 10 and no sleep (delay 0); attempt 2 sleeps 2 then uses timeout
15; attempt 3 sleeps 5 then uses timeout 20 (see `strategies`). -/
def check_individual_ticket_trace (ticket_id : Nat) (resp : Nat → HttpAttempt) : List FetchEvent :=
  match attempt_result ticket_id (resp 1) false with
  | some _ => [FetchEvent.request ticket_id 10]
  | none =>
    match attempt_result ticket_id (resp 2) false with
    | some _ => [FetchEvent.request ticket_id 10, FetchEvent.sleep 2, FetchEvent.request ticket_id 15]
    | none =>
      [FetchEvent.request ticket_id 10, FetchEvent.sleep 2, FetchEvent.request ticket_id 15,
       FetchEvent.sleep 5, FetchEvent.request ticket_id 20]

/-- Number of HTTP requests in a fetch trace. -/
def fetchRequestCount : List FetchEvent → Nat
  | [] => 0
  | FetchEvent.request _ _ :: rest => fetchRequestCount rest + 1
  | FetchEvent.sleep _ :: rest => fetchRequestCount rest

/-- The sleep durations of a fetch trace, in order. -/
def fetchSleeps : List FetchEvent → List Nat
  | [] => []
  | FetchEvent.sleep d :: rest => d :: fetchSleeps rest
  | FetchEvent.request _ _ :: rest => fetchSleeps rest

/-- Danish "sold out/reserved" message checked by `check_tickets_available`. -/
def sold_out_message : String :=
  "solgt eller reserveret. Hvis en anden kunde afbryder sit køb, kan reservationen muligvis frigives igen."

/-- Danish "no tickets for sale" message of `check_tickets_available`. -/
def no_tickets_text : String := "Der findes ingen billetter til salg"

/-- English "no tickets for sale" message of `check_tickets_available`. -/
def no_tickets_text_en : String := "No tickets for sale exists"

/-- Status/message classification of `check_tickets_available` for a
successfully fetched main resale page, lines 421-465 of
`ticket_checker.py`, translated branch by branch.  The second branch is
the literal translation of the Python condition
`elif no_tickets_text or no_tickets_text_en in page_text:` which, by
Python operator precedence and truthiness, tests the non-emptiness of the
constant string `no_tickets_text` (`!no_tickets_text.isEmpty`) rather
than its presence in `page_text`. -/
def check_tickets_available_classify (page : Page) : TStatus × String :=
  let page_text := pageText page
  if strContains page_text sold_out_message then
    (TStatus.NO_TICKETS, ("All tickets are sold or reserved"))
  else if !no_tickets_text.isEmpty || strContains page_text no_tickets_text_en then
    (TStatus.NO_TICKETS, ("No tickets available for sale"))
  else
    let ticket_sections := page.nodes.any (fun t => strContains t.toLower ("billet"))
    let price_indicators := page.nodes.any (fun t =>
      strContains t.toLower ("kr") || strContains t.toLower ("dkk"))
    if ticket_sections || price_indicators then
      (TStatus.TICKETS_AVAILABLE, ("🎫 Tickets are available! Check the website now!"))
    else
      (TStatus.TICKETS_AVAILABLE, ("🎫 No 'sold out' message found - tickets may be available!"))

/-- `check_tickets_available()`: a failed fetch (exception from
`session.get` or `raise_for_status`) yields an ERROR result; a
successful fetch is classified by `check_tickets_available_classify`.
The `ticket_count` field (from `count_ticket_listings`) is a
DOM-fragment count that never influences the status and is omitted. -/
def check_tickets_available (fetched : Except String Page) : TStatus × String :=
  match fetched with
  | Except.error e => (TStatus.ERROR, ("Failed to fetch page: " ++ e))
  | Except.ok page => check_tickets_available_classify page

/-- Python truthiness of `self.specific_ticket_ids` (a missing or empty
list is falsy). -/
def truthyIds : Option (List Nat) → Bool
  | none => false
  | some l => !l.isEmpty

/-- `list(range(start_id, end_id + 1))`, the ids scanned for a
configured range (ascending, inclusive on both ends). -/
def range_ids (start_id end_id : Nat) : List Nat :=
  List.range' start_id (end_id + 1 - start_id)

/-- Selection of the ids to scan, from the head of `check_ticket_range`
(lines 307-327 of `ticket_checker.py`): `if self.specific_ticket_ids:`
takes the explicit list, `elif self.ticket_id_range:` takes the range
(a tuple is always truthy), and otherwise the default range
`(54310, 54360)` is used. -/
def tickets_to_check (specific_ticket_ids : Option (List Nat))
    (ticket_id_range : Option (Nat × Nat)) : List Nat :=
  if truthyIds specific_ticket_ids then
    specific_ticket_ids.getD []
  else
    match ticket_id_range with
    | some (start_id, end_id) => range_ids start_id end_id
    | none => range_ids 54310 54360

/-- Observable events of the scan loop of `check_ticket_range`
(lines 334-366): an HTTP check of one ticket id, the immediate forced
notification fired for a ticket found available, and the
`time.sleep(random.uniform(2.0, 5.0))` executed after every ticket. -/
inductive ScanEvent
  | request (ticket_id : Nat)
  | notifyForced (ticket_id : Nat)
  | sleep (secs : ℚ)
deriving DecidableEq

/-- Event trace of the `for ticket_id in tickets_to_check:` loop of
`check_ticket_range`.  `res t` is the status `check_individual_ticket`
returns for ticket `t` this pass; `delay i` is the value drawn by
`random.uniform(2.0, 5.0)` before the `i`-th sleep (indexed from `i0`).
The sleep is unconditional: it happens after every ticket, whatever the
result status was. -/
def scan_events (delay : Nat → ℚ) (res : Nat → TStatus) : List Nat → Nat → List ScanEvent
  | [], _ => []
  | t :: ts, i =>
    ScanEvent.request t ::
      ((if res t == TStatus.TICKETS_AVAILABLE then [ScanEvent.notifyForced t] else []) ++
        (ScanEvent.sleep (delay i) :: scan_events delay res ts (i + 1)))

/-- The ticket ids requested by a scan trace, in order. -/
def scanRequests : List ScanEvent → List Nat
  | [] => []
  | ScanEvent.request t :: rest => t :: scanRequests rest
  | ScanEvent.notifyForced _ :: rest => scanRequests rest
  | ScanEvent.sleep _ :: rest => scanRequests rest

/-- Checks that every request except the first is preceded by at least
one strictly positive sleep since the previous request (so consecutive
requests are separated by a non-zero delay).  `seen` records whether a
positive sleep has occurred since the last request (initially `true`:
the first request needs no preceding delay). -/
def sepOk : Bool → List ScanEvent → Bool
  | _, [] => true
  | seen, ScanEvent.request _ :: rest => seen && sepOk false rest
  | seen, ScanEvent.sleep q :: rest => sepOk (seen || decide (0 < q)) rest
  | seen, ScanEvent.notifyForced _ :: rest => sepOk seen rest

/-- The per-entity AVAILABLE results collected by `check_ticket_range`
(`available_tickets`), from the list of per-ticket result statuses. -/
def available_results (results : List TStatus) : List TStatus :=
  results.filter (fun r => r == TStatus.TICKETS_AVAILABLE)

/-- The summary status of `check_ticket_range` (lines 368-405):
`if available_tickets:` the summary status is `TICKETS_AVAILABLE`,
`else` it is `NO_TICKETS`. -/
def overall_status (results : List TStatus) : TStatus :=
  if available_results results ≠ [] then TStatus.TICKETS_AVAILABLE
  else TStatus.NO_TICKETS

/-- The guard of `send_notifications` (lines 920-947):
`should_send = force or result[status] == "TICKETS_AVAILABLE" or self.notify_all_statuses`. -/
def shouldSend (force : Bool) (status : TStatus) (notify_all_statuses : Bool) : Bool :=
  force || status == TStatus.TICKETS_AVAILABLE || notify_all_statuses

/-- Outcome of one notification channel inside `send_notifications`.
Each of `send_email_notification`, `send_sms_notification`,
`send_telegram_notification` and `send_pushover_notification` first
returns silently when its configuration is absent, and otherwise runs
its whole provider interaction inside `try: ... except Exception as e:
self.logger.error(...)`: a raised error is caught and logged, never
propagated to the caller. -/
inductive ChannelOutcome
  | skipped
  | sent
  | failedCaught (msg : String)
deriving DecidableEq, Repr

/-- One channel attempt: `none` models an unconfigured channel (silent
no-op), `some (Except.ok ())` a provider call that succeeded, and
`some (Except.error e)` a provider call that raised — which the
channel's own `except` block catches and logs. -/
def attemptChannel : Option (Except String Unit) → ChannelOutcome
  | none => ChannelOutcome.skipped
  | some (Except.ok _) => ChannelOutcome.sent
  | some (Except.error e) => ChannelOutcome.failedCaught e

/-- `send_notifications(result, force)`: when `should_send` holds, the
four channels are each attempted exactly once, in the source's order
(email, SMS, Telegram, Pushover); otherwise nothing is attempted.  The
arguments `email sms telegram pushover` are the behaviors of the four
provider calls for this dispatch. -/
def send_notifications (force : Bool) (status : TStatus) (notify_all_statuses : Bool)
    (email sms telegram pushover : Option (Except String Unit)) : List ChannelOutcome :=
  if shouldSend force status notify_all_statuses then
    [attemptChannel email, attemptChannel sms, attemptChannel telegram, attemptChannel pushover]
  else []

/-- Python's `last_status != result["status"]` in
`run_continuous_monitoring`, where `last_status` starts as `None` and
`None != s` is `True` for every status string `s`. -/
def statusChanged (last_status : Option TStatus) (current : TStatus) : Bool :=
  match last_status with
  | none => true
  | some s => s != current

/-- Whether the summary notification of `run_continuous_monitoring`
(lines 1043-1060) is dispatched for a tick: the guard is
`if self.notify_all_statuses and last_status != result["status"]:`, and
the dispatched `send_notifications(summary_notification)` call (with
`force` defaulting to `False`) only sends when its own `should_send`
guard holds for the summary's status. -/
def summary_dispatched (notify_all_statuses : Bool) (last_status : Option TStatus)
    (current : TStatus) : Bool :=
  notify_all_statuses && statusChanged last_status current
    && shouldSend false current notify_all_statuses

/-- Number of immediate forced notifications dispatched during one scan
pass: `check_ticket_range` calls
`self.send_notifications(immediate_notification, force=True)` once per
ticket whose result status is `TICKETS_AVAILABLE`, and with
`force = True` the `should_send` guard always holds.  The immediate
notification record itself carries status `TICKETS_AVAILABLE`. -/
def immediate_dispatch_count (notify_all_statuses : Bool) (results : List TStatus) : Nat :=
  (results.filter (fun r =>
    r == TStatus.TICKETS_AVAILABLE
      && shouldSend true TStatus.TICKETS_AVAILABLE notify_all_statuses)).length

/-- Total number of notification dispatches during one tick of
`run_continuous_monitoring`: the immediate forced per-ticket alerts of
the scan pass plus the summary notification when its guard holds.
`results` is the list of per-ticket statuses observed this tick; the
tick's own status is `overall_status results`. -/
def tick_dispatch_count (notify_all_statuses : Bool) (last_status : Option TStatus)
    (results : List TStatus) : Nat :=
  immediate_dispatch_count notify_all_statuses results +
    (if summary_dispatched notify_all_statuses last_status (overall_status results) then 1 else 0)

/-- Whether at least one notification is dispatched during a tick. -/
def tick_notifies (notify_all_statuses : Bool) (last_status : Option TStatus)
    (results : List TStatus) : Bool :=
  tick_dispatch_count notify_all_statuses last_status results != 0

/-- A successful classification of an individual ticket page only ever
yields `NO_TICKETS` or `TICKETS_AVAILABLE`. -/
lemma classify_ticket_page_status (ticket_id : Nat) (page : Page) :
    (classify_ticket_page ticket_id page).status = TStatus.NO_TICKETS ∨
    (classify_ticket_page ticket_id page).status = TStatus.TICKETS_AVAILABLE := by
  simp only [classify_ticket_page]
  split_ifs <;> simp

/-- On the last strategy, every branch of the retry loop returns. -/
lemma attempt_result_last_isSome (ticket_id : Nat) (a : HttpAttempt) :
    (attempt_result ticket_id a true).isSome = true := by
  cases a with
  | response code page =>
    simp only [attempt_result, Bool.not_true]
    split_ifs <;> simp_all
  | timeout => rfl
  | netError e => rfl

/-- Whatever the loop returns carries one of the three statuses the
per-entity path can produce. -/
lemma attempt_result_status (ticket_id : Nat) (a : HttpAttempt) (last : Bool)
    (r : TicketResult) (h : attempt_result ticket_id a last = some r) :
    r.status = TStatus.TICKETS_AVAILABLE ∨ r.status = TStatus.NO_TICKETS ∨
      r.status = TStatus.ERROR := by
  cases a with
  | response code page =>
    simp only [attempt_result] at h
    split_ifs at h
    · injection h with h2
      subst h2
      simp
    · injection h with h2
      subst h2
      simp
    · injection h with h2
      subst h2
      simp
    · injection h with h2
      subst h2
      rcases classify_ticket_page_status ticket_id page with hc | hc
      · exact Or.inr (Or.inl hc)
      · exact Or.inl hc
  | timeout =>
    simp only [attempt_result] at h
    split_ifs at h
    injection h with h2
    subst h2
    simp
  | netError e =>
    simp only [attempt_result] at h
    split_ifs at h
    injection h with h2
    subst h2
    simp

/-- The immediate forced dispatch count is the number of AVAILABLE
per-ticket results: with `force = True` the `should_send` guard of
`send_notifications` always holds. -/
lemma immediate_dispatch_count_eq (notify_all_statuses : Bool) (results : List TStatus) :
    immediate_dispatch_count notify_all_statuses results
      = (available_results results).length := by
  unfold immediate_dispatch_count available_results shouldSend
  simp

/-- `scanRequests` distributes over concatenation. -/
lemma scanRequests_append (a b : List ScanEvent) :
    scanRequests (a ++ b) = scanRequests a ++ scanRequests b := by
  induction a with
  | nil => rfl
  | cons e rest ih => cases e <;> simp [scanRequests, ih]

/-- The scan loop requests exactly the configured ids, in order. -/
lemma scanRequests_scan_events (delay : Nat → ℚ) (res : Nat → TStatus) :
    ∀ (ids : List Nat) (i : Nat),
      scanRequests (scan_events delay res ids i) = ids := by
  intro ids
  induction ids with
  | nil => intro i; rfl
  | cons t ts ih =>
    intro i
    unfold scan_events
    cases hc : res t == TStatus.TICKETS_AVAILABLE <;>
      simp [hc, scanRequests, scanRequests_append, ih]

/-- When every drawn delay is positive, consecutive requests of the scan
loop are always separated by a positive sleep. -/
lemma sepOk_scan_events (delay : Nat → ℚ) (res : Nat → TStatus)
    (hpos : ∀ j, 0 < delay j) :
    ∀ (ids : List Nat) (i : Nat),
      sepOk true (scan_events delay res ids i) = true := by
  intro ids
  induction ids with
  | nil => intro i; rfl
  | cons t ts ih =>
    intro i
    unfold scan_events
    cases hc : res t == TStatus.TICKETS_AVAILABLE <;>
      simp [hc, sepOk, hpos i, ih]

/-- C1: the claim states that under the default policy
(`notify_all_statuses = False`, no forced override configured) a
notification is dispatched on a tick if and only if the current status
is `TICKETS_AVAILABLE` and the previous status is not, and in particular
that two consecutive AVAILABLE ticks must not both notify.  This is
false: with previous status AVAILABLE and an AVAILABLE tick, the scan
pass dispatches an immediate forced alert (so the left side holds while
the right side fails), and conversely even on the rising edge
NO_TICKETS → AVAILABLE no change-triggered summary notification is
dispatched under the default policy. -/
theorem tick_notify_default_counterexample :
    ¬ ((tick_notifies false (some TStatus.TICKETS_AVAILABLE)
          [TStatus.TICKETS_AVAILABLE] = true) ↔
        (overall_status [TStatus.TICKETS_AVAILABLE] = TStatus.TICKETS_AVAILABLE ∧
         some TStatus.TICKETS_AVAILABLE ≠ some TStatus.TICKETS_AVAILABLE)) ∧
    summary_dispatched false (some TStatus.NO_TICKETS) TStatus.TICKETS_AVAILABLE
      = false := by
  decide

/-- C1 (amended): under the default policy, a notification is dispatched
during a tick iff the tick's status is `TICKETS_AVAILABLE`, irrespective
of the previous status (the dispatches are the per-ticket forced alerts
of the scan pass), and a change-triggered summary notification is never
dispatched; so two consecutive AVAILABLE ticks both notify. -/
theorem tick_notify_default_policy (last_status : Option TStatus)
    (results : List TStatus) :
    tick_notifies false last_status results
      = (overall_status results == TStatus.TICKETS_AVAILABLE) ∧
    summary_dispatched false last_status (overall_status results) = false := by
  have hsum : ∀ c, summary_dispatched false last_status c = false := by
    intro c
    simp [summary_dispatched]
  refine ⟨?_, hsum _⟩
  unfold tick_notifies tick_dispatch_count
  rw [immediate_dispatch_count_eq, hsum]
  by_cases h : available_results results = []
  · simp [overall_status, h]
  · simp [overall_status, h, List.length_eq_zero]

/-- C5: the claim states that on the first tick (no previous status) the
monitoring loop never treats the tick as a status change, for every
`notify_all_statuses` setting.  This is false: `last_status` starts as
`None` and Python's `None != status` is `True`, so with
`notify_all_statuses = True` the very first tick is classified as a
change and a summary notification is dispatched. -/
theorem first_tick_summary_counterexample :
    statusChanged none TStatus.NO_TICKETS = true ∧
    summary_dispatched true none TStatus.NO_TICKETS = true := by
  decide

/-- C5 (amended): on the first tick the comparison `None != status`
always classifies the tick as a change; under the default policy
(`notify_all_statuses = False`) no summary notification is dispatched on
the first tick, but with `notify_all_statuses = True` a summary
notification is always dispatched on the first tick, whatever the
observed status. -/
theorem first_tick_summary_behavior (current : TStatus) :
    statusChanged none current = true ∧
    summary_dispatched false none current = false ∧
    summary_dispatched true none current = true := by
  cases current <;> decide

/-- C6: the claim states that when both a numeric id range and an
explicit list of ticket ids are configured, the range takes precedence.
This is false: `check_ticket_range` tests `if self.specific_ticket_ids:`
before `elif self.ticket_id_range:`, so the explicit list [200] is
scanned, not the range [100, 103]. -/
theorem range_precedence_counterexample :
    tickets_to_check (some [200]) (some (100, 103)) = [200] ∧
    tickets_to_check (some [200]) (some (100, 103)) ≠ range_ids 100 103 := by
  decide

/-- C6 (amended): when both are configured (and the explicit list is
non-empty, hence truthy), the explicit list of specific ticket ids takes
precedence over the range. -/
theorem specific_ids_precedence (ids : List Nat) (r : Option (Nat × Nat))
    (h : ids ≠ []) :
    tickets_to_check (some ids) r = ids := by
  unfold tickets_to_check truthyIds
  cases ids with
  | nil => exact absurd rfl h
  | cons a l => simp

/-- Witness for `specific_ids_precedence` at the concrete configuration
of the counterexample. -/
theorem specific_ids_precedence_witness :
    ([200] ≠ ([] : List Nat)) ∧
    tickets_to_check (some [200]) (some (100, 103)) = [200] :=
  ⟨by decide, specific_ids_precedence [200] (some (100, 103)) (by decide)⟩

/-- C9: the summary status of a completed scan pass is
`TICKETS_AVAILABLE` iff the collected list of per-entity AVAILABLE
results is non-empty, and `NO_TICKETS` iff it is empty. -/
theorem scan_summary_overall_status (results : List TStatus) :
    (overall_status results = TStatus.TICKETS_AVAILABLE ↔
      available_results results ≠ []) ∧
    (overall_status results = TStatus.NO_TICKETS ↔
      available_results results = []) := by
  unfold overall_status
  by_cases h : available_results results = []
  · simp [h]
  · simp [h]

/-- C4: the claim states that a successfully fetched aggregate resale
page containing none of the negative phrases is classified
`TICKETS_AVAILABLE`.  The code cannot do this: the branch
`elif no_tickets_text or no_tickets_text_en in page_text:` tests the
truthiness of the constant `no_tickets_text` (a non-empty string), so it
is always taken when the sold-out message is absent and the AVAILABLE
branch is unreachable — every successfully fetched page is classified
`NO_TICKETS`.  The commented-out line directly below it in the source
(`if no_tickets_text in page_text:`) shows the intended containment
test; the claim matches the intent, the code has the slip.  The concrete
page here contains a price token and none of the negative phrases, yet
is classified `NO_TICKETS`. -/
theorem aggregate_available_unreachable :
    (∀ page : Page,
      (check_tickets_available (Except.ok page)).1 ≠ TStatus.TICKETS_AVAILABLE) ∧
    (check_tickets_available
        (Except.ok ⟨[("Billetter til salg. Pris: 100 kr")]⟩)).1
      = TStatus.NO_TICKETS ∧
    strContains (pageText ⟨[("Billetter til salg. Pris: 100 kr")]⟩)
        sold_out_message = false ∧
    strContains (pageText ⟨[("Billetter til salg. Pris: 100 kr")]⟩)
        no_tickets_text = false ∧
    strContains (pageText ⟨[("Billetter til salg. Pris: 100 kr")]⟩)
        no_tickets_text_en = false := by
  refine ⟨?_, by decide, by decide, by decide, by decide⟩
  intro page
  have hne : no_tickets_text.isEmpty = false := rfl
  simp only [check_tickets_available, check_tickets_available_classify, hne]
  split_ifs <;> simp_all

/-- C7: for a configured range `[start_id, end_id]` with
`start_id ≤ end_id`, the scan pass checks exactly
`end_id - start_id + 1` ticket ids, each exactly once, in ascending
order (`List.Pairwise` gives both order and distinctness, and the
membership equivalence gives exactness), requesting exactly those ids in
that order; and whenever every value drawn by `random.uniform(2.0, 5.0)`
lies in `[2, 5]`, every pair of consecutive requests is separated by a
strictly positive sleep — the sleep happens unconditionally, also after
tickets whose result status is ERROR or NO_TICKETS, as the universally
quantified result oracle `res` shows. -/
theorem scan_range_order_delays (start_id end_id : Nat) (delay : Nat → ℚ)
    (res : Nat → TStatus) (hse : start_id ≤ end_id)
    (hd : ∀ i, 2 ≤ delay i ∧ delay i ≤ 5) :
    (range_ids start_id end_id).length = end_id - start_id + 1 ∧
    List.Pairwise (· < ·) (range_ids start_id end_id) ∧
    (∀ x, x ∈ range_ids start_id end_id ↔ start_id ≤ x ∧ x ≤ end_id) ∧
    scanRequests (scan_events delay res (range_ids start_id end_id) 0)
      = range_ids start_id end_id ∧
    sepOk true (scan_events delay res (range_ids start_id end_id) 0) = true := by
  have hpos : ∀ j, 0 < delay j :=
    fun j => lt_of_lt_of_le (by norm_num) (hd j).1
  refine ⟨?_, ?_, ?_, scanRequests_scan_events delay res _ 0,
    sepOk_scan_events delay res hpos _ 0⟩
  · unfold range_ids
    rw [List.length_range']
    omega
  · exact List.pairwise_lt_range' start_id (end_id + 1 - start_id)
  · intro x
    unfold range_ids
    rw [List.mem_range'_1]
    omega

/-- Witness for `scan_range_order_delays` on the range [100, 103] with a
constant admissible delay and an all-ERROR result oracle. -/
theorem scan_range_order_delays_witness :
    ((100 : Nat) ≤ 103 ∧ (∀ _ : Nat, (2 : ℚ) ≤ 3 ∧ (3 : ℚ) ≤ 5)) ∧
    ((range_ids 100 103).length = 103 - 100 + 1 ∧
      List.Pairwise (· < ·) (range_ids 100 103) ∧
      (∀ x, x ∈ range_ids 100 103 ↔ 100 ≤ x ∧ x ≤ 103) ∧
      scanRequests (scan_events (fun _ => (3 : ℚ)) (fun _ => TStatus.ERROR)
          (range_ids 100 103) 0) = range_ids 100 103 ∧
      sepOk true (scan_events (fun _ => (3 : ℚ)) (fun _ => TStatus.ERROR)
          (range_ids 100 103) 0) = true) :=
  ⟨⟨by decide, fun _ => ⟨by norm_num, by norm_num⟩⟩,
    scan_range_order_delays 100 103 (fun _ => (3 : ℚ)) (fun _ => TStatus.ERROR)
      (by decide) (fun _ => ⟨by norm_num, by norm_num⟩)⟩

/-- C8: whenever the `should_send` guard lets `send_notifications`
dispatch, all four channels are attempted exactly once, in order, and
each channel's outcome is computed from that channel's own behavior
alone — so a channel whose provider call raises is recorded as caught
and logged (`failedCaught`) and does not prevent the remaining channels
from being attempted. -/
theorem notifier_channel_isolation (force : Bool) (status : TStatus)
    (notify_all_statuses : Bool)
    (email sms telegram pushover : Option (Except String Unit))
    (h : shouldSend force status notify_all_statuses = true) :
    send_notifications force status notify_all_statuses email sms telegram pushover
      = [attemptChannel email, attemptChannel sms, attemptChannel telegram,
         attemptChannel pushover] ∧
    (send_notifications force status notify_all_statuses email sms telegram
        pushover).length = 4 ∧
    (∀ m, attemptChannel (some (Except.error m)) = ChannelOutcome.failedCaught m) := by
  unfold send_notifications
  rw [h]
  exact ⟨rfl, rfl, fun m => rfl⟩

/-- Witness for `notifier_channel_isolation`: a forced dispatch where the
email channel raises, SMS and Pushover succeed, and Telegram is not
configured. -/
theorem notifier_channel_isolation_witness :
    shouldSend true TStatus.NO_TICKETS false = true ∧
    (send_notifications true TStatus.NO_TICKETS false
        (some (Except.error ("bad token"))) (some (Except.ok ())) none
        (some (Except.ok ()))
      = [attemptChannel (some (Except.error ("bad token"))),
         attemptChannel (some (Except.ok ())), attemptChannel none,
         attemptChannel (some (Except.ok ()))] ∧
      (send_notifications true TStatus.NO_TICKETS false
          (some (Except.error ("bad token"))) (some (Except.ok ())) none
          (some (Except.ok ()))).length = 4 ∧
      (∀ m, attemptChannel (some (Except.error m)) = ChannelOutcome.failedCaught m)) :=
  ⟨rfl, notifier_channel_isolation true TStatus.NO_TICKETS false
    (some (Except.error ("bad token"))) (some (Except.ok ())) none
    (some (Except.ok ())) rfl⟩

/-- C2: the claim states that repeated HTTP 429 answers on an individual
ticket page are retried up to 4 total attempts with backoff delays of
30, 60 and 120 seconds and finally yield status `RATE_LIMITED`.  This is
false: `check_individual_ticket` has no 429-specific handling at all — a
429 makes `raise_for_status` raise, the generic handler retries through
the 3 strategies (pre-request delays 2 and 5 seconds), and the final
result has status `ERROR`, not `RATE_LIMITED`. -/
theorem retry_429_counterexample :
    fetchRequestCount (check_individual_ticket_trace 54310
        (fun _ => HttpAttempt.response 429 ⟨[]⟩)) = 3 ∧
    fetchRequestCount (check_individual_ticket_trace 54310
        (fun _ => HttpAttempt.response 429 ⟨[]⟩)) ≠ 4 ∧
    fetchSleeps (check_individual_ticket_trace 54310
        (fun _ => HttpAttempt.response 429 ⟨[]⟩)) = [2, 5] ∧
    (check_individual_ticket 54310 (fun _ => HttpAttempt.response 429 ⟨[]⟩)).status
      = TStatus.ERROR ∧
    (check_individual_ticket 54310 (fun _ => HttpAttempt.response 429 ⟨[]⟩)).status
      ≠ TStatus.RATE_LIMITED := by
  decide

/-- C2 (amended): a fetch of an individual ticket page that repeatedly
answers HTTP 429 is retried through the 3 strategies (3 total requests,
with pre-request delays of 2 and 5 seconds before attempts 2 and 3), and
after exhausting them the result status is `ERROR`. -/
theorem retry_429_behavior (ticket_id : Nat) (resp : Nat → HttpAttempt)
    (h : ∀ n, ∃ page, resp n = HttpAttempt.response 429 page) :
    fetchRequestCount (check_individual_ticket_trace ticket_id resp) = 3 ∧
    fetchSleeps (check_individual_ticket_trace ticket_id resp) = [2, 5] ∧
    (check_individual_ticket ticket_id resp).status = TStatus.ERROR := by
  obtain ⟨p1, h1⟩ := h 1
  obtain ⟨p2, h2⟩ := h 2
  obtain ⟨p3, h3⟩ := h 3
  have a1 : attempt_result ticket_id (resp 1) false = none := by
    rw [h1]; rfl
  have a2 : attempt_result ticket_id (resp 2) false = none := by
    rw [h2]; rfl
  have a3 : attempt_result ticket_id (resp 3) true
      = some { ticket_id := ticket_id, status := TStatus.ERROR,
               message := ("Failed to fetch ticket " ++ toString ticket_id
                 ++ " after 3 attempts: HTTPError") } := by
    rw [h3]; rfl
  unfold check_individual_ticket check_individual_ticket_trace
  rw [a1, a2, a3]
  exact ⟨rfl, rfl, rfl⟩

/-- Witness for `retry_429_behavior` on an all-429 response sequence. -/
theorem retry_429_behavior_witness :
    (∀ n : Nat, ∃ page,
      (fun _ : Nat => HttpAttempt.response 429 ⟨[]⟩) n
        = HttpAttempt.response 429 page) ∧
    (fetchRequestCount (check_individual_ticket_trace 54311
        (fun _ : Nat => HttpAttempt.response 429 ⟨[]⟩)) = 3 ∧
      fetchSleeps (check_individual_ticket_trace 54311
        (fun _ : Nat => HttpAttempt.response 429 ⟨[]⟩)) = [2, 5] ∧
      (check_individual_ticket 54311
        (fun _ : Nat => HttpAttempt.response 429 ⟨[]⟩)).status = TStatus.ERROR) :=
  ⟨fun _ => ⟨⟨[]⟩, rfl⟩,
    retry_429_behavior 54311 (fun _ => HttpAttempt.response 429 ⟨[]⟩)
      (fun _ => ⟨⟨[]⟩, rfl⟩)⟩

/-- C3: the claim states that an HTTP 403 answer on an individual ticket
page is never retried (exactly one request) and immediately yields
status `AUTH_REQUIRED`.  This is false: `check_individual_ticket`
explicitly continues to the next strategy on 403 (3 requests in total
for a persistent 403) and then returns status `NO_TICKETS` ("access
forbidden (likely not available or protected)"), never `AUTH_REQUIRED`. -/
theorem forbidden_403_counterexample :
    fetchRequestCount (check_individual_ticket_trace 54310
        (fun _ => HttpAttempt.response 403 ⟨[]⟩)) = 3 ∧
    fetchRequestCount (check_individual_ticket_trace 54310
        (fun _ => HttpAttempt.response 403 ⟨[]⟩)) ≠ 1 ∧
    (check_individual_ticket 54310 (fun _ => HttpAttempt.response 403 ⟨[]⟩)).status
      = TStatus.NO_TICKETS ∧
    (check_individual_ticket 54310 (fun _ => HttpAttempt.response 403 ⟨[]⟩)).status
      ≠ TStatus.AUTH_REQUIRED := by
  decide

/-- C3 (amended): a fetch of an individual ticket page that repeatedly
answers HTTP 403 is retried through all 3 strategies (3 total requests)
and after the last attempt the 403 is classified as `NO_TICKETS`
("treat 403 as not available"), never `AUTH_REQUIRED`. -/
theorem forbidden_403_behavior (ticket_id : Nat) (resp : Nat → HttpAttempt)
    (h : ∀ n, ∃ page, resp n = HttpAttempt.response 403 page) :
    fetchRequestCount (check_individual_ticket_trace ticket_id resp) = 3 ∧
    (check_individual_ticket ticket_id resp).status = TStatus.NO_TICKETS ∧
    (check_individual_ticket ticket_id resp).status ≠ TStatus.AUTH_REQUIRED := by
  obtain ⟨p1, h1⟩ := h 1
  obtain ⟨p2, h2⟩ := h 2
  obtain ⟨p3, h3⟩ := h 3
  have a1 : attempt_result ticket_id (resp 1) false = none := by
    rw [h1]; rfl
  have a2 : attempt_result ticket_id (resp 2) false = none := by
    rw [h2]; rfl
  have a3 : attempt_result ticket_id (resp 3) true
      = some { ticket_id := ticket_id, status := TStatus.NO_TICKETS,
               message := ("Ticket " ++ toString ticket_id
                 ++ " access forbidden (likely not available or protected)") } := by
    rw [h3]; rfl
  unfold check_individual_ticket check_individual_ticket_trace
  rw [a1, a2, a3]
  exact ⟨rfl, rfl, by simp⟩

/-- Witness for `forbidden_403_behavior` on an all-403 response sequence. -/
theorem forbidden_403_behavior_witness :
    (∀ n : Nat, ∃ page,
      (fun _ : Nat => HttpAttempt.response 403 ⟨[]⟩) n
        = HttpAttempt.response 403 page) ∧
    (fetchRequestCount (check_individual_ticket_trace 54311
        (fun _ : Nat => HttpAttempt.response 403 ⟨[]⟩)) = 3 ∧
      (check_individual_ticket 54311
        (fun _ : Nat => HttpAttempt.response 403 ⟨[]⟩)).status = TStatus.NO_TICKETS ∧
      (check_individual_ticket 54311
        (fun _ : Nat => HttpAttempt.response 403 ⟨[]⟩)).status
          ≠ TStatus.AUTH_REQUIRED) :=
  ⟨fun _ => ⟨⟨[]⟩, rfl⟩,
    forbidden_403_behavior 54311 (fun _ => HttpAttempt.response 403 ⟨[]⟩)
      (fun _ => ⟨⟨[]⟩, rfl⟩)⟩

/-- C10: `check_individual_ticket` always returns a result — the last
strategy iteration returns on every branch (`isSome`), so the loop never
falls through — and the returned status is always one of
`TICKETS_AVAILABLE`, `NO_TICKETS`, `ERROR`; in particular the per-entity
path never emits `AUTH_REQUIRED` or `RATE_LIMITED`, whatever the
response sequence (including persistent 403 or 429 answers). -/
theorem check_individual_ticket_status_total (ticket_id : Nat)
    (resp : Nat → HttpAttempt) :
    (attempt_result ticket_id (resp 3) true).isSome = true ∧
    ((check_individual_ticket ticket_id resp).status = TStatus.TICKETS_AVAILABLE ∨
      (check_individual_ticket ticket_id resp).status = TStatus.NO_TICKETS ∨
      (check_individual_ticket ticket_id resp).status = TStatus.ERROR) ∧
    (check_individual_ticket ticket_id resp).status ≠ TStatus.AUTH_REQUIRED ∧
    (check_individual_ticket ticket_id resp).status ≠ TStatus.RATE_LIMITED := by
  have hmem :
      (check_individual_ticket ticket_id resp).status = TStatus.TICKETS_AVAILABLE ∨
      (check_individual_ticket ticket_id resp).status = TStatus.NO_TICKETS ∨
      (check_individual_ticket ticket_id resp).status = TStatus.ERROR := by
    unfold check_individual_ticket
    cases h1 : attempt_result ticket_id (resp 1) false with
    | some r => exact attempt_result_status ticket_id (resp 1) false r h1
    | none =>
      cases h2 : attempt_result ticket_id (resp 2) false with
      | some r => exact attempt_result_status ticket_id (resp 2) false r h2
      | none =>
        cases h3 : attempt_result ticket_id (resp 3) true with
        | some r => exact attempt_result_status ticket_id (resp 3) true r h3
        | none => simp
  refine ⟨attempt_result_last_isSome ticket_id (resp 3), hmem, ?_, ?_⟩
  · rcases hmem with h | h | h <;> simp [h]
  · rcases hmem with h | h | h <;> simp [h]
